import Mathlib

/-!
Shallow embedding of the LabelReadingApp backend
(src/backend/verification_service.py, src/backend/ocr_service.py,
src/backend/app.py) together with theorems settling the frozen claims.

Strings are modelled as Lean `String` (lists of characters).  The Python
string primitives used by the code (`str.lower`, `str.strip`,
`str.replace`, the `in` substring operator) are embedded for the ASCII
fragment, which is the fragment the program exercises: `pyIsSpace` covers
Python's whitespace set for ASCII, `pyLowerChar` covers ASCII case
mapping.  The three regular expressions the code builds are embedded by
dedicated matching functions whose semantics (leftmost search, greedy
quantifiers with backtracking) follow Python's `re` module on the
concrete patterns the code constructs.
-/

/-- Python `str.isspace` characters, ASCII fragment: space, tab, newline,
carriage return, vertical tab, form feed. -/
def pyIsSpace (c : Char) : Bool :=
  c = ' ' || c = '\t' || c = '\n' || c = '\r' || c.toNat = 11 || c.toNat = 12

/-- Python `str.lower` on one character, ASCII fragment. -/
def pyLowerChar (c : Char) : Char :=
  if 'A' ≤ c && c ≤ 'Z' then Char.ofNat (c.toNat + 32) else c

/-- Python `str.lower`, ASCII fragment. -/
def pyLower (s : List Char) : List Char := s.map pyLowerChar

/-- Python `str.strip()`: remove leading and trailing whitespace. -/
def pyStrip (s : List Char) : List Char :=
  ((s.dropWhile pyIsSpace).reverse.dropWhile pyIsSpace).reverse

/-- Python `str.replace(p, "")` for a single-character pattern `p`:
scan left to right, dropping every occurrence of `p`
(`verification_service.py` line 308 uses `replace('%', '')`). -/
def pyDropChar (p : Char) : List Char → List Char
  | [] => []
  | c :: cs => if c = p then pyDropChar p cs else c :: pyDropChar p cs

/-- Match a literal at the front: if `lit` is a leading segment of `s`,
return the rest of `s`, else `none`. -/
def dropLit : List Char → List Char → Option (List Char)
  | [], s => some s
  | _ :: _, [] => none
  | a :: au, b :: bu => if a = b then dropLit au bu else none

/-- Python's substring operator `needle in hay` on strings. -/
def pyInStr (needle : List Char) : List Char → Bool
  | [] => (dropLit needle []).isSome
  | c :: cs => (dropLit needle (c :: cs)).isSome || pyInStr needle cs


namespace VerificationService

/-- One per-field check result, `verification_service.py`'s result dicts:
`matched` models the "match" key, `found`/`error` model the "found" and
"error" keys with `none` for Python `None` / an absent key. -/
structure CheckResult where
  matched : Bool
  expected : String
  found : Option String
  error : Option String
  deriving Repr, DecidableEq

/-- `VerificationService._normalize_text`: `text.lower().strip()`. -/
def _normalize_text (text : String) : String :=
  String.mk (pyStrip (pyLower text.data))

/-- `VerificationService._check_brand_name` (lines 183-225). -/
def _check_brand_name (brand_name : String) (normalized_ocr : String) : CheckResult :=
  if brand_name = "" then
    { matched := false, expected := "", found := none,
      error := some "Brand name not provided in form" }
  else
    let normalized_brand := _normalize_text brand_name
    if pyInStr normalized_brand.data normalized_ocr.data then
      { matched := true, expected := brand_name, found := some normalized_brand,
        error := none }
    else
      { matched := false, expected := brand_name, found := none,
        error := some ("Brand name '" ++ brand_name ++ "' not found in label") }

/-- `VerificationService._check_product_type` (lines 227-268). -/
def _check_product_type (product_type : String) (normalized_ocr : String) : CheckResult :=
  if product_type = "" then
    { matched := false, expected := "", found := none,
      error := some "Product type not provided in form" }
  else
    let normalized_type := _normalize_text product_type
    if pyInStr normalized_type.data normalized_ocr.data then
      { matched := true, expected := product_type, found := some normalized_type,
        error := none }
    else
      { matched := false, expected := product_type, found := none,
        error := some ("Product type '" ++ product_type ++ "' not found in label") }

end VerificationService

/-- Python regex `\w` (word character), ASCII fragment:
letters, digits and underscore. -/
def isWordChar (c : Char) : Bool :=
  ('a' ≤ c && c ≤ 'z') || ('A' ≤ c && c ≤ 'Z') || ('0' ≤ c && c ≤ '9') || c = '_'

/-- Python regex `\b`: true when exactly one side of the position is a
word character (a string edge counts as a non-word side). -/
def isWordBoundary (prev next : Option Char) : Bool :=
  (match prev with | some c => isWordChar c | none => false) !=
  (match next with | some c => isWordChar c | none => false)

/-- Tail `\s*%` of the ABV pattern: greedily skip whitespace, then
require a literal `%`; returns the consumed characters.  No backtracking
arises because `%` is not whitespace. -/
def wsPercentTail : List Char → Option (List Char)
  | [] => none
  | c :: cs =>
    if c = '%' then some ['%']
    else if pyIsSpace c then (wsPercentTail cs).map (fun t => c :: t)
    else none

/-- Match of the ABV pattern `\b<lit>(?:\.0)?\s*%` at one position:
`prev` is the character just before the position (`none` at the string
start), `s` the text from the position on.  `lit` is `re.escape`d in the
source, hence a literal.  The optional group `(?:\.0)?` is greedy: the
branch consuming `.0` is tried first.  Returns `group(0)`. -/
def abvMatchAt (lit : List Char) (prev : Option Char) (s : List Char) : Option (List Char) :=
  if isWordBoundary prev s.head? then
    match dropLit lit s with
    | none => none
    | some r1 =>
      match dropLit ['.', '0'] r1 with
      | some r2 =>
        match wsPercentTail r2 with
        | some t => some (lit ++ '.' :: '0' :: t)
        | none => (wsPercentTail r1).map (fun t => lit ++ t)
      | none => (wsPercentTail r1).map (fun t => lit ++ t)
  else none

/-- `re.search` for the ABV pattern: try each position left to right and
return the first (leftmost) match. -/
def abvSearchAux (lit : List Char) : Option Char → List Char → Option (List Char)
  | prev, [] => abvMatchAt lit prev []
  | prev, c :: cs =>
    match abvMatchAt lit prev (c :: cs) with
    | some m => some m
    | none => abvSearchAux lit (some c) cs

/-- `re.search(r'\b' + re.escape(abv_clean) + r'(?:\.0)?\s*%', text)`. -/
def abvSearch (lit text : List Char) : Option (List Char) :=
  abvSearchAux lit none text

namespace VerificationService

/-- The cleaned ABV input of `_check_abv` line 308:
`abv.strip().replace('%', '').strip()`. -/
def abv_clean (abv : String) : String :=
  String.mk (pyStrip (pyDropChar '%' (pyStrip abv.data)))

/-- `VerificationService._check_abv` (lines 270-331). -/
def _check_abv (abv : String) (normalized_ocr : String) : CheckResult :=
  if abv = "" then
    { matched := false, expected := "", found := none,
      error := some "ABV not provided in form" }
  else
    match abvSearch (abv_clean abv).data normalized_ocr.data with
    | some m =>
      { matched := true, expected := abv ++ "%", found := some (String.mk m),
        error := none }
    | none =>
      { matched := false, expected := abv ++ "%", found := none,
        error := some ("ABV '" ++ abv ++ "%' not found in label") }

end VerificationService

/-- Character class `[a-z.\s]` of the volume-parsing pattern in
`_check_net_contents` (line 368). -/
def unitChar (c : Char) : Bool :=
  ('a' ≤ c && c ≤ 'z') || c = '.' || pyIsSpace c

/-- The part `\s*([a-z.\s]+)` of the volume-parsing pattern: greedy
whitespace run, then a greedy nonempty class run; returns group 2.
Whitespace belongs to the class, so when the character after the
whitespace run is outside the class the engine backtracks `\s*` by one
character and the class run captures that single whitespace character. -/
def wsUnitGroup (s : List Char) : Option (List Char) :=
  let w := s.takeWhile pyIsSpace
  let r := s.dropWhile pyIsSpace
  match r.head? with
  | some c =>
    if unitChar c then some (r.takeWhile unitChar)
    else
      match w.reverse.head? with
      | some x => some [x]
      | none => none
  | none =>
    match w.reverse.head? with
    | some x => some [x]
    | none => none

/-- Match of `(\d+(?:\.\d+)?)\s*([a-z.\s]+)` at one position, returning
`(group 1, group 2)`.  `\d+` takes the maximal digit run; the greedy
optional `(?:\.\d+)?` is tried first and abandoned (backtracked) when the
rest of the pattern then fails.  Further backtracking into the digit runs
can never succeed, because a digit is neither `.` nor in `[a-z.\s]`. -/
def volumeMatchAt (s : List Char) : Option (List Char × List Char) :=
  match s.head? with
  | none => none
  | some c =>
    if c.isDigit then
      let d1 := s.takeWhile Char.isDigit
      let r1 := s.dropWhile Char.isDigit
      let withOpt : Option (List Char × List Char) :=
        match r1 with
        | '.' :: r2 =>
          if (r2.takeWhile Char.isDigit) = [] then none
          else
            (wsUnitGroup (r2.dropWhile Char.isDigit)).map
              (fun g2 => (d1 ++ '.' :: r2.takeWhile Char.isDigit, g2))
        | _ => none
      match withOpt with
      | some res => some res
      | none => (wsUnitGroup r1).map (fun g2 => (d1, g2))
    else none

/-- `re.search(r'(\d+(?:\.\d+)?)\s*([a-z.\s]+)', s)`: leftmost match. -/
def volumeSearch : List Char → Option (List Char × List Char)
  | [] => none
  | c :: cs =>
    match volumeMatchAt (c :: cs) with
    | some r => some r
    | none => volumeSearch cs

/-- Case-insensitive literal match at the front (`re.IGNORECASE`):
if `lit` is a leading segment of `s` up to ASCII case, return the rest. -/
def dropLitCI : List Char → List Char → Option (List Char)
  | [], s => some s
  | _ :: _, [] => none
  | a :: au, b :: bu =>
    if pyLowerChar a = pyLowerChar b then dropLitCI au bu else none

/-- Match of the net-contents pattern `<number>\s*<escaped unit>` at one
position (with `re.IGNORECASE`); returns the length of `group(0)`.
The unit is stripped, so it never starts with whitespace and no
backtracking of `\s*` can succeed. -/
def ncMatchAt (number unit s : List Char) : Option Nat :=
  match dropLitCI number s with
  | none => none
  | some r1 =>
    let w := r1.takeWhile pyIsSpace
    let r2 := r1.dropWhile pyIsSpace
    match dropLitCI unit r2 with
    | some _ => some (number.length + w.length + unit.length)
    | none => none

/-- `re.search` for the net-contents pattern: leftmost match,
returning `group(0)`. -/
def ncSearch (number unit : List Char) : List Char → Option (List Char)
  | [] => none
  | c :: cs =>
    match ncMatchAt number unit (c :: cs) with
    | some n => some ((c :: cs).take n)
    | none => ncSearch number unit cs

namespace VerificationService

/-- `VerificationService._check_net_contents` (lines 333-400). -/
def _check_net_contents (net_contents : String) (normalized_ocr : String) : CheckResult :=
  if net_contents = "" then
    { matched := true, expected := "Not provided", found := some "Not checked",
      error := none }
  else
    let normalized_contents := _normalize_text net_contents
    match volumeSearch normalized_contents.data with
    | none =>
      { matched := false, expected := net_contents, found := none,
        error := some "Could not parse volume format from form input" }
    | some (number, g2) =>
      let unit := pyStrip g2
      match ncSearch number unit normalized_ocr.data with
      | some m =>
        { matched := true, expected := net_contents, found := some (String.mk m),
          error := none }
      | none =>
        { matched := false, expected := net_contents, found := none,
          error := some ("Net contents '" ++ net_contents ++ "' not found in label") }

/-- `VerificationService._check_government_warning` (lines 402-429). -/
def _check_government_warning (normalized_ocr : String) : CheckResult :=
  if pyInStr "government warning".data normalized_ocr.data then
    { matched := true, expected := "Government Warning Present",
      found := some "GOVERNMENT WARNING", error := none }
  else
    { matched := false, expected := "Government Warning Present", found := none,
      error := some "Government warning statement not found on label" }

/-- The form data handed to `verify_label` by `app.py` (all four keys
present; `net_contents` is `""` when the user left it out). -/
structure FormData where
  brand_name : String
  product_type : String
  abv : String
  net_contents : String
  deriving Repr, DecidableEq

/-- The "details" dict of a verification result.  `net_contents` is an
`Option` because `verify_label` only inserts that key when the form
field is non-empty (line 139). -/
structure VerifyDetails where
  brand_name : CheckResult
  product_type : CheckResult
  abv : CheckResult
  net_contents : Option CheckResult
  government_warning : CheckResult
  deriving Repr, DecidableEq

/-- The dict returned by `verify_label`. -/
structure VerifyResult where
  overall_match : Bool
  details : VerifyDetails
  ocr_text : String
  deriving Repr, DecidableEq

/-- The aggregation loop of `verify_label` (lines 153-157): walk the
required-field results, set `overall_match` to `False` and break at the
first non-match; the accumulator starts at `True` (line 115). -/
def required_all_match : List CheckResult → Bool
  | [] => true
  | r :: rs => if r.matched then required_all_match rs else false

/-- `VerificationService.verify_label` (lines 62-159). -/
def verify_label (form_data : FormData) (ocr_text : String) : VerifyResult :=
  let normalized_ocr := _normalize_text ocr_text
  let brand := _check_brand_name form_data.brand_name normalized_ocr
  let ptype := _check_product_type form_data.product_type normalized_ocr
  let abvRes := _check_abv form_data.abv normalized_ocr
  let net : Option CheckResult :=
    if form_data.net_contents = "" then none
    else some (_check_net_contents form_data.net_contents normalized_ocr)
  let warn := _check_government_warning normalized_ocr
  { overall_match := required_all_match [brand, ptype, abvRes],
    details :=
      { brand_name := brand, product_type := ptype, abv := abvRes,
        net_contents := net, government_warning := warn },
    ocr_text := ocr_text }

end VerificationService

namespace OCRService

/-- Outcome of the effectful body of `extract_text_from_image`
(`ocr_service.py` lines 95-149): `Image.open`, `_preprocess_image` and
`pytesseract.image_to_string` either produce a text, raise
`pytesseract.TesseractNotFoundError`, or raise some other exception
whose `str(e)` is `msg`. -/
inductive PipelineOutcome where
  | text (t : String)
  | tesseractMissing
  | failure (msg : String)
  deriving Repr, DecidableEq

/-- The dict returned by `extract_text_from_image`. -/
structure OCRResult where
  success : Bool
  text : String
  error : Option String
  deriving Repr, DecidableEq

/-- Error message of the empty-text branch (lines 121-126). -/
def noTextError : String :=
  "No text could be extracted from the image. The image may be too blurry, too dark, or contain no text."

/-- Error message of the `TesseractNotFoundError` handler (lines 135-141). -/
def tesseractError : String :=
  "Tesseract OCR is not installed. Please install it: sudo apt-get install tesseract-ocr"

/-- `OCRService.extract_text_from_image` (lines 60-149), with the file
system and the recognizer pipeline abstracted into `fileExists` and
`outcome`.  Every Python exception the body can raise is caught by one
of the two `except` clauses, so the embedding is a total function into
`OCRResult`: the function never raises past its boundary. -/
def extract_text_from_image (image_path : String) (fileExists : Bool)
    (outcome : PipelineOutcome) : OCRResult :=
  if !fileExists then
    { success := false, text := "",
      error := some ("Image file not found: " ++ image_path) }
  else
    match outcome with
    | .text t =>
      let extracted_text := String.mk (pyStrip t.data)
      if extracted_text = "" then
        { success := false, text := "", error := some noTextError }
      else
        { success := true, text := extracted_text, error := none }
    | .tesseractMissing =>
      { success := false, text := "", error := some tesseractError }
    | .failure msg =>
      { success := false, text := "",
        error := some ("Error processing image: " ++ msg) }

end OCRService

namespace App

/-- Exit observed for one `POST /verify` request that passed validation
and reached the temp-file `try` block (`app.py` lines 182-224):
HTTP status of the response and whether the temporary image file has
been deleted when the response is returned. -/
structure VerifyExit where
  status : Nat
  tempDeleted : Bool
  deriving Repr, DecidableEq

/-- Temp-file lifecycle of the `verify` handler from `file.save`
onwards (`app.py` lines 182-224).
`saveRaises`: `file.save` raises; control goes to the `except` handler,
which removes the file if present and returns 500.
Otherwise the OCR result `ocr` is inspected: on `not ocr["success"]`
the handler returns the 500 error response directly (lines 190-194) —
with no `os.remove` and no `finally` block on that path.
`laterRaises`: an unexpected exception after the OCR step
(verification or response building); the `except` handler removes the
file and returns 500.  Otherwise lines 204-205 remove the file and
line 208 returns 200. -/
def verifyTempLifecycle (saveRaises : Bool) (ocr : OCRService.OCRResult)
    (laterRaises : Bool) : VerifyExit :=
  if saveRaises then { status := 500, tempDeleted := true }
  else if !ocr.success then { status := 500, tempDeleted := false }
  else if laterRaises then { status := 500, tempDeleted := true }
  else { status := 200, tempDeleted := true }

end App

open VerificationService

/-- The aggregation loop result equals the conjunction of the three
required matches. -/
theorem required_all_match_three (a b c : CheckResult) :
    required_all_match [a, b, c] = (a.matched && b.matched && c.matched) := by
  cases ha : a.matched <;> cases hb : b.matched <;> cases hc : c.matched <;>
    simp [required_all_match, ha, hb, hc]

/-- C1: for every request, `verify_label`'s `overall_match` is the
logical AND of the brand_name, product_type and abv check results only;
in particular a request whose OCR text lacks the government warning can
still have `overall_match = true` (here even with a `net_contents` entry
present). -/
theorem C1_overall_match_is_and_of_required_checks :
    (∀ (f : FormData) (t : String),
      (verify_label f t).overall_match =
        ((verify_label f t).details.brand_name.matched &&
         (verify_label f t).details.product_type.matched &&
         (verify_label f t).details.abv.matched)) ∧
    ((verify_label ⟨"tom", "gin", "45", "750 ml"⟩ "tom gin 45% 750ml").overall_match = true ∧
     (verify_label ⟨"tom", "gin", "45", "750 ml"⟩ "tom gin 45% 750ml").details.government_warning.matched = false) := by
  refine ⟨fun f t => ?_, by decide, by decide⟩
  simp only [verify_label]
  exact required_all_match_three _ _ _

/-- C2 counterexample: the claim predicts `match = true` whenever
`lowercase(B)` is a substring of `lowercase(T)`; for `B = ""` and
`T = "x"` the empty string is a substring of `"x"`, yet
`_check_brand_name` returns `match = false` (its not-provided guard). -/
theorem C2_counterexample_empty_brand :
    (_check_brand_name "" (_normalize_text "x")).matched = false ∧
    pyInStr (pyLower "".data) (pyLower "x".data) = true := by
  decide

/-- C2 amended: for every brand-name or product-type input `B` and OCR
text `T`, the check returns `match = true` iff `B` is non-empty and the
whitespace-stripped `lowercase(B)` is a substring of the
whitespace-stripped `lowercase(T)`; an empty `B` is rejected by the
not-provided guard, and surrounding whitespace of `B` is stripped before
the substring test. -/
theorem C2_amended_substring_rule :
    ∀ (B T : String),
      (_check_brand_name B (_normalize_text T)).matched =
        (if B = "" then false
         else pyInStr (_normalize_text B).data (_normalize_text T).data) ∧
      (_check_product_type B (_normalize_text T)).matched =
        (if B = "" then false
         else pyInStr (_normalize_text B).data (_normalize_text T).data) := by
  intro B T
  constructor
  · rcases eq_or_ne B "" with hB | hB
    · simp [_check_brand_name, hB]
    · simp only [_check_brand_name, if_neg hB]
      cases h : pyInStr (_normalize_text B).data (_normalize_text T).data <;> simp [h]
  · rcases eq_or_ne B "" with hB | hB
    · simp [_check_product_type, hB]
    · simp only [_check_product_type, if_neg hB]
      cases h : pyInStr (_normalize_text B).data (_normalize_text T).data <;> simp [h]

/-- C3: for ABV input "45" the check accepts OCR texts containing
"45%", "45.0%" and "45 %", and rejects texts whose only candidate
occurrences are "145%" or "450%" (the `\b` anchor and the exact-tail
pattern exclude them). -/
theorem C3_abv_45_accept_reject :
    (_check_abv "45" "45%").matched = true ∧
    (_check_abv "45" "45.0%").matched = true ∧
    (_check_abv "45" "45 %").matched = true ∧
    (_check_abv "45" "abv 45% vol").matched = true ∧
    (_check_abv "45" "abv 45.0% vol").matched = true ∧
    (_check_abv "45" "abv 45 % vol").matched = true ∧
    (_check_abv "45" "145%").matched = false ∧
    (_check_abv "45" "450%").matched = false ∧
    (_check_abv "45" "abv 145% vol").matched = false ∧
    (_check_abv "45" "abv 450% vol").matched = false := by
  decide

/-- C4 counterexample: for a request whose `net_contents` field is empty
the claim predicts a `net_contents` entry with `match = true` and a
"not checked" marker, but `verify_label` (line 139) only inserts the
entry when the field is non-empty: the details contain no entry. -/
theorem C4_counterexample_empty_net_contents_entry_absent :
    (verify_label ⟨"a", "a", "45", ""⟩ "a 45%").details.net_contents = none := by
  decide

/-- C4 amended: when the `net_contents` field is absent or empty,
`verify_label` omits the `net_contents` entry from the details
entirely; the automatic `match = true` / "Not checked" result exists
only inside `_check_net_contents` for empty input, a branch
`verify_label` never reaches. -/
theorem C4_amended_net_contents_entry :
    (∀ (f : FormData) (t : String),
      (verify_label f t).details.net_contents =
        (if f.net_contents = "" then none
         else some (_check_net_contents f.net_contents (_normalize_text t)))) ∧
    (∀ t : String,
      _check_net_contents "" t =
        { matched := true, expected := "Not provided", found := some "Not checked",
          error := none }) := by
  exact ⟨fun f t => rfl, fun t => rfl⟩

/-- C5: the claim says the temp file is deleted on every exit path, and
the code's own comments promise the same ("Always clean up, even if
there was an error"), but the handled OCR-failure path (app.py lines
190-194) returns the 500 response without deleting the file; the other
exit paths do delete it. -/
theorem C5_ocr_failure_path_skips_temp_cleanup :
    (App.verifyTempLifecycle false ⟨false, "", some OCRService.noTextError⟩ false =
      { status := 500, tempDeleted := false }) ∧
    (∀ (r : OCRService.OCRResult) (b : Bool),
      App.verifyTempLifecycle true r b = { status := 500, tempDeleted := true }) ∧
    (App.verifyTempLifecycle false ⟨true, "label text", none⟩ true =
      { status := 500, tempDeleted := true }) ∧
    (App.verifyTempLifecycle false ⟨true, "label text", none⟩ false =
      { status := 200, tempDeleted := true }) := by
  exact ⟨rfl, fun r b => rfl, rfl, rfl⟩

/-- C6: `extract_text_from_image` always returns a result record (the
embedding is a total function, mirroring that both `except` clauses
catch everything the body can raise): empty trimmed recognizer output
yields `success = false` with the "no text found" error, a missing
recognizer engine yields the distinct "engine not installed" error, and
any other exception yields the generic processing error; the three
messages are pairwise distinct. -/
theorem C6_extract_text_error_contract :
    (∀ (p t : String),
      OCRService.extract_text_from_image p true (.text t) =
        (if String.mk (pyStrip t.data) = "" then
          { success := false, text := "", error := some OCRService.noTextError }
         else
          { success := true, text := String.mk (pyStrip t.data), error := none })) ∧
    (∀ p : String,
      OCRService.extract_text_from_image p true .tesseractMissing =
        { success := false, text := "", error := some OCRService.tesseractError }) ∧
    (∀ (p msg : String),
      OCRService.extract_text_from_image p true (.failure msg) =
        { success := false, text := "",
          error := some ("Error processing image: " ++ msg) }) ∧
    (OCRService.noTextError == OCRService.tesseractError) = false ∧
    (∀ msg : List Char,
      (("Error processing image: ".data ++ msg) == OCRService.noTextError.data) = false ∧
      (("Error processing image: ".data ++ msg) == OCRService.tesseractError.data) = false) := by
  refine ⟨fun p t => rfl, fun p => rfl, fun p msg => rfl, by decide, fun msg => ⟨rfl, rfl⟩⟩

/-- C8: the net-contents search pattern has no left word boundary, so
input "750 ml" matches an OCR text where 750 occurs only as the suffix
of 1750, while the ABV check's `\b` anchor rejects the analogous
ABV case. -/
theorem C8_net_contents_unanchored_abv_anchored :
    (_check_net_contents "750 ml" (_normalize_text "size 1750ml")).matched = true ∧
    (_check_abv "750" (_normalize_text "size 1750%")).matched = false := by
  decide

/-- The claim's reading of the ABV cleaning step, following the spec's
words ("strip a trailing `%` from input"): strip surrounding whitespace
and remove only a trailing `%`.  Compared below against the code's
`abv_clean`, which removes every `%`. -/
def stripTrailingPercentSpec (abv : String) : String :=
  let t := pyStrip abv.data
  match t.getLast? with
  | some '%' => String.mk (pyStrip t.dropLast)
  | _ => String.mk t

/-- C7 counterexample: for input "4%5" the code's cleaning step
(`abv.strip().replace('%', '').strip()`) removes the non-trailing `%`
and produces numeric part "45", while the claim's only-trailing-`%`
reading keeps it and produces "4%5". -/
theorem C7_counterexample_inner_percent_removed :
    abv_clean "4%5" = "45" ∧
    stripTrailingPercentSpec "4%5" = "4%5" ∧
    (abv_clean "4%5" == stripTrailingPercentSpec "4%5") = false := by
  decide

/-- Python's single-character `replace(p, '')` scan is the filter that
removes every occurrence of `p`. -/
theorem pyDropChar_eq_filter (p : Char) (l : List Char) :
    pyDropChar p l = l.filter (fun c => !(c == p)) := by
  induction l with
  | nil => rfl
  | cons c cs ih => by_cases h : c = p <;> simp [pyDropChar, h, ih, List.filter_cons]

/-- Filtering for `p` after keeping only the complement of `p` yields
nothing. -/
theorem filter_pos_after_filter_neg (p : Char → Bool) (l : List Char) :
    (l.filter (fun c => !(p c))).filter p = [] := by
  induction l with
  | nil => rfl
  | cons c cs ih => cases h : p c <;> simp [List.filter_cons, h, ih]

/-- `dropWhile` only removes elements, so an empty filter result stays
empty. -/
theorem filter_eq_nil_dropWhile (p q : Char → Bool) :
    ∀ l : List Char, l.filter p = [] → (l.dropWhile q).filter p = []
  | [], _ => rfl
  | c :: cs, h => by
    rw [List.filter_cons] at h
    split at h
    · exact absurd h (List.cons_ne_nil _ _)
    · rename_i hp
      rw [List.dropWhile_cons]
      by_cases hq : q c
      · simpa [hq] using filter_eq_nil_dropWhile p q cs h
      · simp [hq, List.filter_cons, hp, h]

/-- `pyStrip` only removes elements, so an empty filter result stays
empty. -/
theorem filter_eq_nil_pyStrip (p : Char → Bool) (l : List Char)
    (h : l.filter p = []) : (pyStrip l).filter p = [] := by
  unfold pyStrip
  have h1 := filter_eq_nil_dropWhile p pyIsSpace l h
  have h2 : (l.dropWhile pyIsSpace).reverse.filter p = [] := by
    rw [List.filter_reverse, h1, List.reverse_nil]
  have h3 := filter_eq_nil_dropWhile p pyIsSpace _ h2
  rw [List.filter_reverse, h3, List.reverse_nil]

/-- C7 amended: the ABV check builds the numeric part of its pattern
from the input with EVERY `%` removed, not only a trailing one: the
cleaned input is the whitespace-stripped input with all `%` characters
filtered out (all other characters preserved in order), stripped again;
consequently no `%` at all survives into the numeric part. -/
theorem C7_amended_every_percent_removed :
    ∀ abv : String,
      (abv_clean abv).data =
        pyStrip ((pyStrip abv.data).filter (fun c => !(c == '%'))) ∧
      (abv_clean abv).data.filter (fun c => c == '%') = [] := by
  intro abv
  have h1 : (abv_clean abv).data =
      pyStrip ((pyStrip abv.data).filter (fun c => !(c == '%'))) := by
    show pyStrip (pyDropChar '%' (pyStrip abv.data)) = _
    rw [pyDropChar_eq_filter]
  refine ⟨h1, ?_⟩
  rw [h1]
  exact filter_eq_nil_pyStrip _ _ (filter_pos_after_filter_neg (fun c => c == '%') _)

/-- Invariant of the per-field result dicts: the "found" key is `None`
exactly when "match" is false, and the "error" key is present exactly
when "match" is false. -/
def checkInv (r : CheckResult) : Prop :=
  r.found.isSome = r.matched ∧ r.error.isSome = !r.matched

/-- C9: every result dict produced by the five check functions satisfies
the invariant: "match" is true iff "found" is not None, and the "error"
key is present iff "match" is false. -/
theorem C9_check_result_invariant :
    ∀ (x t : String),
      checkInv (_check_brand_name x t) ∧
      checkInv (_check_product_type x t) ∧
      checkInv (_check_abv x t) ∧
      checkInv (_check_net_contents x t) ∧
      checkInv (_check_government_warning t) := by
  intro x t
  refine ⟨?_, ?_, ?_, ?_, ?_⟩
  · by_cases hx : x = "" <;>
      by_cases h : pyInStr (_normalize_text x).data t.data = true <;>
        simp [checkInv, _check_brand_name, hx, h]
  · by_cases hx : x = "" <;>
      by_cases h : pyInStr (_normalize_text x).data t.data = true <;>
        simp [checkInv, _check_product_type, hx, h]
  · by_cases hx : x = "" <;>
      rcases h : abvSearch (abv_clean x).data t.data with _ | m <;>
        simp [checkInv, _check_abv, hx, h]
  · by_cases hx : x = ""
    · simp [checkInv, _check_net_contents, hx]
    · rcases hv : volumeSearch (_normalize_text x).data with _ | ⟨number, g2⟩
      · simp [checkInv, _check_net_contents, hx, hv]
      · rcases hn : ncSearch number (pyStrip g2) t.data with _ | m <;>
          simp [checkInv, _check_net_contents, hx, hv, hn]
  · by_cases h : pyInStr "government warning".data t.data = true <;>
      simp [checkInv, _check_government_warning, h]

/-- C10: the `ocr_text` field of `verify_label`'s result is the raw
input OCR text unchanged, not the lowercased and trimmed text used for
the comparisons (at `"ABC"` the two differ). -/
theorem C10_ocr_text_is_raw_input :
    (∀ (f : FormData) (t : String), (verify_label f t).ocr_text = t) ∧
    ((verify_label ⟨"a", "b", "1", ""⟩ "ABC").ocr_text == _normalize_text "ABC") = false := by
  exact ⟨fun f t => rfl, by decide⟩